import Mathlib

/-!
Verification of the YUMZY recipe-backend catalog engine.

This file gives a shallow embedding, in Lean, of the service layer of the
YUMZY backend (`backend/services/search_service.py`,
`backend/services/recipe_service.py`, `backend/core/exceptions.py`,
`backend/main.py`), and proves or refutes the specification claims about
pagination, rating upsert and aggregation, favorites, search filtering and
ranking, similar recipes, and the total-time invariant.

Modelling conventions:
* The relational store is a record of lists of rows (`DB`); SQLAlchemy
  queries become list `filter`/`find?`/sort operations; `.first()` on a
  mutating path becomes an update of the first matching row.
* SQL `Float`/`numeric` values (`average_rating`, `func.avg`) are modelled
  as exact rationals `ℚ`, the idealized arithmetic of the aggregate.
* Nullable columns are `Option`; SQLAlchemy's three-valued logic is made
  explicit (`NULL <= v` and `NULL = 'x'` are not satisfied; comparing a
  column with the Python value `None` compiles to `IS NULL`, i.e. plain
  `Option` equality).
* Python dict truthiness (`if filters.get(k):`) is modelled by `truthy*`
  functions: an absent key, empty string, empty list, `False` and `0` all
  disable the corresponding filter, exactly as in the source.
* Plain Python `ValueError` and the structured `HTTPException` subclasses
  of `core/exceptions.py` are distinguished, because `main.py` maps the
  former to a generic 500 response and the latter to their own status code.
* The ORM `order_by` is modelled by `List.insertionSort` with the
  corresponding relation; only sortedness and the multiset of rows are
  relevant to the claims, never the (unspecified) tie order.
-/

namespace Yumzy

/-- Row of the `ingredients` table (`models.py`, class `Ingredient`). -/
structure Ingredient where
  id : Nat
  name : String
  category : Option String
deriving DecidableEq

/-- Row of the recipe-ingredient join table carrying per-recipe
quantity/unit (`models.py` / `models/recipe_ingredient.py`). -/
structure RecipeIngredient where
  recipe_id : Nat
  ingredient_id : Nat
  quantity : Option String
  unit : Option String
deriving DecidableEq

/-- Row of the `recipes` table (`models.py`, class `Recipe`), restricted to
the columns the services read or write. -/
structure Recipe where
  id : Nat
  title : String
  description : Option String
  instructions : String
  prep_time : Option Nat
  cook_time : Option Nat
  total_time : Option Nat
  servings : Option Nat
  difficulty_level : Option String
  cuisine_type : Option String
  meal_type : Option String
  is_vegetarian : Bool
  is_vegan : Bool
  is_gluten_free : Bool
  main_image : Option String
  is_published : Bool
  average_rating : ℚ
  rating_count : Nat
  view_count : Nat
  favorite_count : Nat
  created_at : Nat
  author_id : Nat
deriving DecidableEq

/-- Row of the `ratings` table (`models.py`, class `Rating`). -/
structure Rating where
  id : Nat
  rating : Nat
  comment : Option String
  user_id : Nat
  recipe_id : Nat
deriving DecidableEq

/-- Row of the `favorites` table (`models.py`, class `Favorite`). -/
structure Favorite where
  id : Nat
  notes : Option String
  user_id : Nat
  recipe_id : Nat
deriving DecidableEq

/-- The relational store, with fresh-id counters standing in for the
auto-increment primary keys. -/
structure DB where
  recipes : List Recipe
  ingredients : List Ingredient
  recipe_ingredients : List RecipeIngredient
  ratings : List Rating
  favorites : List Favorite
  next_recipe_id : Nat
  next_ingredient_id : Nat
  next_rating_id : Nat
  next_favorite_id : Nat
deriving DecidableEq

/-- Structured application error (`core/exceptions.py`, class
`YumzyException`): HTTP status code, message and machine error code. -/
structure YumzyError where
  status_code : Nat
  message : String
  error_code : Option String
deriving DecidableEq

/-- `core/exceptions.py`, `RecipeNotFoundError`. -/
def RecipeNotFoundError : YumzyError :=
  ⟨404, "Recipe not found", some "RECIPE_NOT_FOUND"⟩

/-- `core/exceptions.py`, `RecipeAccessDeniedError` (the services pass a
custom message). -/
def RecipeAccessDeniedError (msg : String) : YumzyError :=
  ⟨403, msg, some "RECIPE_ACCESS_DENIED"⟩

/-- `core/exceptions.py`, `DuplicateFavoriteError` — declared with a 409
Conflict status but never raised anywhere in the services. -/
def DuplicateFavoriteError : YumzyError :=
  ⟨409, "Recipe already in favorites", some "DUPLICATE_FAVORITE"⟩

/-- `core/exceptions.py`, `FavoriteNotFoundError` — declared with a 404
status but never raised anywhere in the services. -/
def FavoriteNotFoundError : YumzyError :=
  ⟨404, "Recipe not in favorites", some "FAVORITE_NOT_FOUND"⟩

/-- An error escaping a service call: either a structured
`YumzyException` (an `HTTPException` subclass) or a plain Python
`ValueError`. -/
inductive ServiceError where
  | http (e : YumzyError)
  | valueError (msg : String)
deriving DecidableEq

/-- HTTP status produced by the exception handlers in `main.py`: an
`HTTPException` keeps its own status code, every other exception (such as
a bare `ValueError`) falls to the generic handler and becomes a 500. -/
def httpStatus : ServiceError → Nat
  | .http e => e.status_code
  | .valueError _ => 500

/-- Python truthiness of an optional string (`filters.get(k)` with a
string value: absent key and empty string are falsy). -/
def truthyStr : Option String → Bool
  | some s => s != ""
  | none => false

/-- Python truthiness of an optional list (absent key and empty list are
falsy). -/
def truthyList : Option (List String) → Bool
  | some l => !l.isEmpty
  | none => false

/-- Python truthiness of an optional bool (absent key and `False` are
falsy). -/
def truthyBool : Option Bool → Bool
  | some b => b
  | none => false

/-- Python truthiness of an optional integer (absent key and `0` are
falsy). -/
def truthyNat : Option Nat → Bool
  | some n => n != 0
  | none => false

/-- Python truthiness of an optional numeric rating (absent key and `0`
are falsy). -/
def truthyRat : Option ℚ → Bool
  | some q => decide (q ≠ 0)
  | none => false

/-- Case-insensitive containment: `col ILIKE '%term%'` for a term without
further wildcard characters, as built by
`search_term = f"%\x7bquery\x7d%"` in the source. -/
def ilikeContains (col term : String) : Bool :=
  (col.toLower.splitOn term.toLower).length != 1 || term == ""

/-- The filter dictionary accepted by `SearchService.search_recipes`
(`search_service.py`); `none` is an absent key. -/
structure SearchFilters where
  query : Option String
  ingredients : Option (List String)
  cuisine_type : Option String
  meal_type : Option String
  difficulty_level : Option String
  max_prep_time : Option Nat
  max_cook_time : Option Nat
  is_vegetarian : Option Bool
  is_vegan : Option Bool
  is_gluten_free : Option Bool
  min_rating : Option ℚ
deriving DecidableEq

/-- The empty filter dictionary. -/
def noFilters : SearchFilters :=
  ⟨none, none, none, none, none, none, none, none, none, none, none⟩

/-- Text search over title and description
(`search_service.py` lines 34–41); a NULL description never matches. -/
def textMatches (q : String) (r : Recipe) : Bool :=
  ilikeContains r.title q ||
    (match r.description with
     | some d => ilikeContains d q
     | none => false)

/-- Ingredient-based search (`search_service.py` lines 44–55): the recipe
id must appear in the join rows whose ingredient id belongs to an
ingredient named in the filter list. -/
def ingredientMatches (db : DB) (names : List String) (r : Recipe) : Bool :=
  db.recipe_ingredients.any fun ri =>
    decide (ri.recipe_id = r.id) &&
      db.ingredients.any fun ing =>
        decide (ing.id = ri.ingredient_id) && decide (ing.name ∈ names)

/-- Conjunction of the published check and every truthy filter of
`SearchService.search_recipes` (`search_service.py` lines 31–83). -/
def matchesFilters (db : DB) (f : SearchFilters) (r : Recipe) : Bool :=
  r.is_published
  && (!truthyStr f.query || textMatches (f.query.getD "") r)
  && (!truthyList f.ingredients || ingredientMatches db (f.ingredients.getD []) r)
  && (!truthyStr f.cuisine_type || decide (r.cuisine_type = some (f.cuisine_type.getD "")))
  && (!truthyStr f.meal_type || decide (r.meal_type = some (f.meal_type.getD "")))
  && (!truthyStr f.difficulty_level || decide (r.difficulty_level = some (f.difficulty_level.getD "")))
  && (!truthyNat f.max_prep_time ||
        (match r.prep_time with
         | some p => decide (p ≤ f.max_prep_time.getD 0)
         | none => false))
  && (!truthyNat f.max_cook_time ||
        (match r.cook_time with
         | some c => decide (c ≤ f.max_cook_time.getD 0)
         | none => false))
  && (!truthyBool f.is_vegetarian || r.is_vegetarian)
  && (!truthyBool f.is_vegan || r.is_vegan)
  && (!truthyBool f.is_gluten_free || r.is_gluten_free)
  && (!truthyRat f.min_rating || decide (f.min_rating.getD 0 ≤ r.average_rating))

/-- The relevance score `average_rating * rating_count + view_count`
(`search_service.py` line 92). -/
def relevance (r : Recipe) : ℚ :=
  r.average_rating * r.rating_count + r.view_count

/-- Descending order on the relevance score. -/
def relevanceGe (a b : Recipe) : Prop :=
  relevance b ≤ relevance a

instance : DecidableRel relevanceGe :=
  fun a b => inferInstanceAs (Decidable (relevance b ≤ relevance a))

instance : IsTotal Recipe relevanceGe :=
  ⟨fun a b => le_total (relevance b) (relevance a)⟩

instance : IsTrans Recipe relevanceGe :=
  ⟨fun _ _ _ h1 h2 => le_trans h2 h1⟩

/-- Descending order on creation time. -/
def createdAtGe (a b : Recipe) : Prop :=
  b.created_at ≤ a.created_at

instance : DecidableRel createdAtGe :=
  fun a b => inferInstanceAs (Decidable (b.created_at ≤ a.created_at))

instance : IsTotal Recipe createdAtGe :=
  ⟨fun a b => le_total b.created_at a.created_at⟩

instance : IsTrans Recipe createdAtGe :=
  ⟨fun _ _ _ h1 h2 => le_trans h2 h1⟩

/-- Descending order on the average rating. -/
def avgRatingGe (a b : Recipe) : Prop :=
  b.average_rating ≤ a.average_rating

instance : DecidableRel avgRatingGe :=
  fun a b => inferInstanceAs (Decidable (b.average_rating ≤ a.average_rating))

instance : IsTotal Recipe avgRatingGe :=
  ⟨fun a b => le_total b.average_rating a.average_rating⟩

instance : IsTrans Recipe avgRatingGe :=
  ⟨fun _ _ _ h1 h2 => le_trans h2 h1⟩

/-- The candidate set of a search after filtering
(the query built in `search_service.py` lines 31–83, before counting). -/
def searchFiltered (db : DB) (f : SearchFilters) : List Recipe :=
  db.recipes.filter (matchesFilters db f)

/-- The fully sorted search result before pagination
(`search_service.py` lines 88–96): relevance order when a text query or
ingredient filter is (truthily) present, creation-time order otherwise. -/
def searchSorted (db : DB) (f : SearchFilters) : List Recipe :=
  if truthyStr f.query || truthyList f.ingredients then
    (searchFiltered db f).insertionSort relevanceGe
  else
    (searchFiltered db f).insertionSort createdAtGe

/-- The paginated list envelope returned by both
`SearchService.search_recipes` (as `SearchResponse`) and
`RecipeService.get_recipes` (as `RecipeListResponse`). The items keep the
full recipe rows; the per-item response conversion copies every field a
claim mentions unchanged. -/
structure PageResponse where
  recipes : List Recipe
  total_count : Nat
  page : Nat
  limit : Nat
  total_pages : Nat
  has_next : Bool
  has_prev : Bool
deriving DecidableEq

/-- `SearchService.search_recipes` (`search_service.py` lines 21–118).
The `user_id` argument is used by the source only for per-item
`is_favorited`/`user_rating` enrichment, never for filtering. -/
def search_recipes (db : DB) (f : SearchFilters) (page limit : Nat)
    (user_id : Option Nat) : PageResponse :=
  let _ := user_id
  let offset := (page - 1) * limit
  let total_count := (searchFiltered db f).length
  let items := ((searchSorted db f).drop offset).take limit
  let total_pages := (total_count + limit - 1) / limit
  { recipes := items
    total_count := total_count
    page := page
    limit := limit
    total_pages := total_pages
    has_next := decide (page < total_pages)
    has_prev := decide (1 < page) }

/-- The filter dictionary accepted by `RecipeService.get_recipes`
(`recipe_service.py` lines 39–53). -/
structure ListFilters where
  cuisine_type : Option String
  meal_type : Option String
  difficulty_level : Option String
  max_prep_time : Option Nat
  is_vegetarian : Option Bool
  is_vegan : Option Bool
  is_gluten_free : Option Bool
deriving DecidableEq

/-- Conjunction of the published check and every truthy filter of
`RecipeService.get_recipes`; a `none` dictionary applies no filters. -/
def matchesListFilters (filters : Option ListFilters) (r : Recipe) : Bool :=
  r.is_published
  && (match filters with
      | none => true
      | some f =>
        (!truthyStr f.cuisine_type || decide (r.cuisine_type = some (f.cuisine_type.getD "")))
        && (!truthyStr f.meal_type || decide (r.meal_type = some (f.meal_type.getD "")))
        && (!truthyStr f.difficulty_level || decide (r.difficulty_level = some (f.difficulty_level.getD "")))
        && (!truthyNat f.max_prep_time ||
              (match r.prep_time with
               | some p => decide (p ≤ f.max_prep_time.getD 0)
               | none => false))
        && (!truthyBool f.is_vegetarian || r.is_vegetarian)
        && (!truthyBool f.is_vegan || r.is_vegan)
        && (!truthyBool f.is_gluten_free || r.is_gluten_free))

/-- `RecipeService.get_recipes` (`recipe_service.py` lines 26–84):
filter, count, sort by creation time descending, paginate, and assemble
the same pagination metadata as the search path. -/
def get_recipes (db : DB) (page limit : Nat) (filters : Option ListFilters)
    (user_id : Option Nat) : PageResponse :=
  let _ := user_id
  let offset := (page - 1) * limit
  let filtered := db.recipes.filter (matchesListFilters filters)
  let total_count := filtered.length
  let items := ((filtered.insertionSort createdAtGe).drop offset).take limit
  let total_pages := (total_count + limit - 1) / limit
  { recipes := items
    total_count := total_count
    page := page
    limit := limit
    total_pages := total_pages
    has_next := decide (page < total_pages)
    has_prev := decide (1 < page) }

/-- Replace the first element satisfying `p` by its image under `g`,
modelling a mutation of the row returned by `.first()`. -/
def updateFirst (p : α → Bool) (g : α → α) : List α → List α
  | [] => []
  | x :: xs => if p x then g x :: xs else x :: updateFirst p g xs

/-- Remove the first element satisfying `p`, modelling `db.delete(row)` on
the row returned by `.first()`. -/
def removeFirst (p : α → Bool) : List α → List α
  | [] => []
  | x :: xs => if p x then xs else x :: removeFirst p xs

/-- The `(user, recipe)` ownership predicate used by the rating queries in
`recipe_service.py` (`Rating.recipe_id == ... and Rating.user_id == ...`). -/
def ratingPair (recipe_id user_id : Nat) (rt : Rating) : Bool :=
  decide (rt.recipe_id = recipe_id) && decide (rt.user_id = user_id)

/-- All rating rows of one recipe. -/
def ratingsFor (db : DB) (recipe_id : Nat) : List Rating :=
  db.ratings.filter fun rt => decide (rt.recipe_id = recipe_id)

/-- The aggregate recomputation of `RecipeService.create_rating`
(`recipe_service.py` lines 371–381): `func.avg`/`func.count` over all
rating rows of the recipe, written back onto the recipe row. The source's
`float(avg_rating) if avg_rating else 0.0` collapses both the NULL
average (no rows) and a zero average to `0.0`; with ratings summed in ℚ
that is exactly the guarded division below. -/
def recomputeRatingAggregates (db : DB) (recipe_id : Nat) : DB :=
  let rs := ratingsFor db recipe_id
  let cnt := rs.length
  let avg : ℚ := if cnt = 0 then 0 else ((rs.map fun rt => (rt.rating : ℚ)).sum) / cnt
  { db with
    recipes := updateFirst (fun r => decide (r.id = recipe_id))
      (fun r => { r with average_rating := avg, rating_count := cnt }) db.recipes }

/-- Payload of `POST /social/ratings` (`schemas.py`, `RatingCreate`). -/
structure RatingCreate where
  recipe_id : Nat
  rating : Nat
  comment : Option String
deriving DecidableEq

/-- `RecipeService.create_rating` (`recipe_service.py` lines 341–394):
404 when the recipe is absent; otherwise update the first existing rating
row of the `(user, recipe)` pair or insert a new row, then recompute the
recipe's aggregates from all its rating rows in the same transaction. -/
def create_rating (db : DB) (rd : RatingCreate) (user_id : Nat) :
    Except ServiceError (DB × Rating) :=
  match db.recipes.find? (fun r => decide (r.id = rd.recipe_id)) with
  | none => .error (.http RecipeNotFoundError)
  | some _ =>
    let pair := ratingPair rd.recipe_id user_id
    let upd :=
      match db.ratings.find? pair with
      | some rt =>
        let newRatings :=
          updateFirst pair
            (fun x => { x with rating := rd.rating, comment := rd.comment }) db.ratings
        ({ db with ratings := newRatings },
         { rt with rating := rd.rating, comment := rd.comment })
      | none =>
        let newRt : Rating :=
          ⟨db.next_rating_id, rd.rating, rd.comment, user_id, rd.recipe_id⟩
        ({ db with ratings := db.ratings ++ [newRt],
                   next_rating_id := db.next_rating_id + 1 },
         newRt)
    .ok (recomputeRatingAggregates upd.1 rd.recipe_id, upd.2)

/-- Modelled from the spec: `RecipeService.delete_rating` is invoked by
the `DELETE /social/ratings/\x7brating_id\x7d` route in `api/social.py`
but its implementation is absent from the source tree. Per the spec
(§4.1), deleting a rating removes the user's rating row and recomputes
the recipe's `average_rating` and `rating_count` from all remaining
rating rows in the same transaction. -/
def delete_rating (db : DB) (rating_id user_id : Nat) :
    Except ServiceError DB :=
  match db.ratings.find? (fun rt => decide (rt.id = rating_id) && decide (rt.user_id = user_id)) with
  | none => .error (.http ⟨404, "Rating not found", some "RATING_NOT_FOUND"⟩)
  | some rt =>
    let db1 := { db with
      ratings := removeFirst (fun x => decide (x.id = rating_id) && decide (x.user_id = user_id)) db.ratings }
    .ok (recomputeRatingAggregates db1 rt.recipe_id)

/-- `RecipeService.is_recipe_favorited` (`recipe_service.py` lines
309–316). -/
def is_recipe_favorited (db : DB) (recipe_id user_id : Nat) : Bool :=
  db.favorites.any fun fv =>
    decide (fv.recipe_id = recipe_id) && decide (fv.user_id = user_id)

/-- `RecipeService.add_to_favorites` (`recipe_service.py` lines 256–288):
404 when the recipe is absent; a plain `ValueError` (not the declared
`DuplicateFavoriteError`) when already favorited; otherwise insert the
favorite row and increment the recipe's `favorite_count`. -/
def add_to_favorites (db : DB) (recipe_id user_id : Nat)
    (notes : Option String) : Except ServiceError DB :=
  match db.recipes.find? (fun r => decide (r.id = recipe_id)) with
  | none => .error (.http RecipeNotFoundError)
  | some _ =>
    if is_recipe_favorited db recipe_id user_id then
      .error (.valueError "Recipe already in favorites")
    else
      let fav : Favorite := ⟨db.next_favorite_id, notes, user_id, recipe_id⟩
      let db1 := { db with
        favorites := db.favorites ++ [fav],
        next_favorite_id := db.next_favorite_id + 1 }
      .ok { db1 with
        recipes := updateFirst (fun r => decide (r.id = recipe_id))
          (fun r => { r with favorite_count := r.favorite_count + 1 }) db1.recipes }

/-- `RecipeService.remove_from_favorites` (`recipe_service.py` lines
290–307): a plain `ValueError` (not the declared `FavoriteNotFoundError`)
when the favorite row is absent; otherwise delete the row and decrement
the recipe's `favorite_count`, floored at 0 by `max(0, ...)`. -/
def remove_from_favorites (db : DB) (recipe_id user_id : Nat) :
    Except ServiceError DB :=
  let pair := fun fv : Favorite =>
    decide (fv.recipe_id = recipe_id) && decide (fv.user_id = user_id)
  match db.favorites.find? pair with
  | none => .error (.valueError "Recipe not in favorites")
  | some _ =>
    let db1 := { db with favorites := removeFirst pair db.favorites }
    .ok { db1 with
      recipes := updateFirst (fun r => decide (r.id = recipe_id))
        (fun r => { r with favorite_count := max 0 (r.favorite_count - 1) }) db1.recipes }

/-- `RecipeService.get_similar_recipes` (`recipe_service.py` lines
225–242): empty when the source recipe is absent; otherwise the top
`limit` published recipes other than the source whose cuisine or meal
type equals the source's (SQLAlchemy compiles a comparison against a
`None` attribute to `IS NULL`, i.e. `Option` equality), ordered by
average rating descending. -/
def get_similar_recipes (db : DB) (recipe_id : Nat) (limit : Nat) :
    List Recipe :=
  match db.recipes.find? (fun r => decide (r.id = recipe_id)) with
  | none => []
  | some recipe =>
    ((db.recipes.filter fun r =>
        decide (r.id ≠ recipe_id) && r.is_published &&
          (decide (r.cuisine_type = recipe.cuisine_type) ||
            decide (r.meal_type = recipe.meal_type))).insertionSort avgRatingGe).take limit

/-- One entry of the ingredient payload of recipe creation
(`schemas/recipe.py` as consumed by `RecipeService.create_recipe`). -/
structure IngredientData where
  name : String
  category : Option String
  quantity : Option String
  unit : Option String
deriving DecidableEq

/-- Payload of recipe creation as consumed by
`RecipeService.create_recipe`. -/
structure RecipeCreate where
  title : String
  description : Option String
  instructions : String
  prep_time : Option Nat
  cook_time : Option Nat
  servings : Option Nat
  difficulty_level : Option String
  cuisine_type : Option String
  meal_type : Option String
  ingredients : List IngredientData
deriving DecidableEq

/-- One step of the ingredient find-or-create loop of
`RecipeService.create_recipe` (`recipe_service.py` lines 111–133): look
the ingredient up by case-insensitive name (`ILIKE` without wildcards),
create it if absent, and add the join row. -/
def addIngredientStep (rid : Nat) (acc : DB) (d : IngredientData) : DB :=
  match acc.ingredients.find? (fun ing => ing.name.toLower == d.name.toLower) with
  | some ing =>
    { acc with recipe_ingredients :=
        acc.recipe_ingredients ++ [⟨rid, ing.id, d.quantity, d.unit⟩] }
  | none =>
    let newIng : Ingredient := ⟨acc.next_ingredient_id, d.name, d.category⟩
    { acc with
      ingredients := acc.ingredients ++ [newIng],
      next_ingredient_id := acc.next_ingredient_id + 1,
      recipe_ingredients :=
        acc.recipe_ingredients ++ [⟨rid, newIng.id, d.quantity, d.unit⟩] }

/-- `RecipeService.create_recipe` (`recipe_service.py` lines 86–139):
build the recipe row with `total_time = (prep_time or 0) + (cook_time or
0)` and the column defaults of `models.py`, then find-or-create each
ingredient by case-insensitive name and add the join rows. `now` stands
for the `server_default=func.now()` timestamp. -/
def create_recipe (db : DB) (rd : RecipeCreate) (user_id : Nat) (now : Nat) :
    DB × Recipe :=
  let total_time := rd.prep_time.getD 0 + rd.cook_time.getD 0
  let recipe : Recipe :=
    { id := db.next_recipe_id
      title := rd.title
      description := rd.description
      instructions := rd.instructions
      prep_time := rd.prep_time
      cook_time := rd.cook_time
      total_time := some total_time
      servings := rd.servings
      difficulty_level := rd.difficulty_level
      cuisine_type := rd.cuisine_type
      meal_type := rd.meal_type
      is_vegetarian := false
      is_vegan := false
      is_gluten_free := false
      main_image := none
      is_published := true
      average_rating := 0
      rating_count := 0
      view_count := 0
      favorite_count := 0
      created_at := now
      author_id := user_id }
  let db1 := { db with
    recipes := db.recipes ++ [recipe],
    next_recipe_id := db.next_recipe_id + 1 }
  let db2 := rd.ingredients.foldl (addIngredientStep recipe.id) db1
  (db2, recipe)

/-- Payload of recipe update (`schemas.py`, `RecipeUpdate`); the outer
`Option` is pydantic's `exclude_unset` (field not sent), the inner one
the nullable column value. `total_time` is not an updatable field. -/
structure RecipeUpdate where
  title : Option String
  description : Option (Option String)
  instructions : Option String
  prep_time : Option (Option Nat)
  cook_time : Option (Option Nat)
  servings : Option (Option Nat)
  difficulty_level : Option (Option String)
  cuisine_type : Option (Option String)
  meal_type : Option (Option String)
  is_published : Option Bool
deriving DecidableEq

/-- The `setattr` loop of `RecipeService.update_recipe` over the fields
present in `update_data` (`recipe_service.py` lines 184–186). -/
def applyFields (r : Recipe) (u : RecipeUpdate) : Recipe :=
  { r with
    title := u.title.getD r.title
    description := u.description.getD r.description
    instructions := u.instructions.getD r.instructions
    prep_time := u.prep_time.getD r.prep_time
    cook_time := u.cook_time.getD r.cook_time
    servings := u.servings.getD r.servings
    difficulty_level := u.difficulty_level.getD r.difficulty_level
    cuisine_type := u.cuisine_type.getD r.cuisine_type
    meal_type := u.meal_type.getD r.meal_type
    is_published := u.is_published.getD r.is_published }

/-- Field assignment followed by the conditional recomputation of
`total_time` when `prep_time` or `cook_time` is among the updated fields
(`recipe_service.py` lines 188–190). -/
def applyUpdate (r : Recipe) (u : RecipeUpdate) : Recipe :=
  let r1 := applyFields r u
  if u.prep_time.isSome || u.cook_time.isSome then
    { r1 with total_time := some (r1.prep_time.getD 0 + r1.cook_time.getD 0) }
  else r1

/-- `RecipeService.update_recipe` (`recipe_service.py` lines 173–196):
404 when the recipe is absent, 403 when the caller is not the author,
otherwise apply the set fields and write the row back. -/
def update_recipe (db : DB) (recipe_id : Nat) (u : RecipeUpdate)
    (user_id : Nat) : Except ServiceError (DB × Recipe) :=
  match db.recipes.find? (fun r => decide (r.id = recipe_id)) with
  | none => .error (.http RecipeNotFoundError)
  | some r =>
    if r.author_id ≠ user_id then
      .error (.http (RecipeAccessDeniedError "Not authorized to update this recipe"))
    else
      let updated := applyUpdate r u
      .ok ({ db with recipes :=
              updateFirst (fun x => decide (x.id = recipe_id)) (fun _ => updated) db.recipes },
           updated)

/-! ### Helper lemmas about the embedding -/

theorem length_updateFirst (p : α → Bool) (g : α → α) :
    ∀ l : List α, (updateFirst p g l).length = l.length
  | [] => rfl
  | x :: xs => by
    by_cases h : p x <;> simp [updateFirst, h, length_updateFirst p g xs]

theorem search_recipes_eq (db : DB) (f : SearchFilters) (page limit : Nat)
    (uid : Option Nat) :
    search_recipes db f page limit uid =
      { recipes := ((searchSorted db f).drop ((page - 1) * limit)).take limit
        total_count := (searchFiltered db f).length
        page := page
        limit := limit
        total_pages := ((searchFiltered db f).length + limit - 1) / limit
        has_next := decide (page < ((searchFiltered db f).length + limit - 1) / limit)
        has_prev := decide (1 < page) } := rfl

/-- The filtered-and-sorted candidate list of `RecipeService.get_recipes`
before pagination. -/
def listSorted (db : DB) (filters : Option ListFilters) : List Recipe :=
  (db.recipes.filter (matchesListFilters filters)).insertionSort createdAtGe

theorem get_recipes_eq (db : DB) (page limit : Nat)
    (filters : Option ListFilters) (uid : Option Nat) :
    get_recipes db page limit filters uid =
      { recipes := ((listSorted db filters).drop ((page - 1) * limit)).take limit
        total_count := (db.recipes.filter (matchesListFilters filters)).length
        page := page
        limit := limit
        total_pages := ((db.recipes.filter (matchesListFilters filters)).length + limit - 1) / limit
        has_next := decide (page < ((db.recipes.filter (matchesListFilters filters)).length + limit - 1) / limit)
        has_prev := decide (1 < page) } := rfl

theorem length_searchSorted (db : DB) (f : SearchFilters) :
    (searchSorted db f).length = (searchFiltered db f).length := by
  unfold searchSorted
  by_cases h : (truthyStr f.query || truthyList f.ingredients) = true <;>
    simp [h]

theorem mem_searchSorted {db : DB} {f : SearchFilters} {r : Recipe} :
    r ∈ searchSorted db f ↔ r ∈ db.recipes ∧ matchesFilters db f r = true := by
  unfold searchSorted
  by_cases h : (truthyStr f.query || truthyList f.ingredients) = true <;>
    simp [h, searchFiltered, List.mem_insertionSort, List.mem_filter]

theorem length_listSorted (db : DB) (filters : Option ListFilters) :
    (listSorted db filters).length =
      (db.recipes.filter (matchesListFilters filters)).length := by
  simp [listSorted]

/-- Both bounds of the integer ceiling division
`total_pages = (total_count + limit - 1) / limit`. -/
theorem ceil_div_bounds (tc l : Nat) (hl : 1 ≤ l) :
    tc ≤ ((tc + l - 1) / l) * l ∧ ((tc + l - 1) / l) * l < tc + l := by
  have hdm := Nat.div_add_mod (tc + l - 1) l
  have hmod := Nat.mod_lt (tc + l - 1) (show 0 < l from hl)
  rw [Nat.mul_comm]
  revert hdm hmod
  generalize l * ((tc + l - 1) / l) = A
  generalize (tc + l - 1) % l = r
  intro hdm hmod
  omega

/-- Correct pagination envelope over a given pre-pagination candidate
list: ceiling `total_pages` (hence 0, not 1, on an empty result),
`has_next`/`has_prev` as claimed, the items are the slice of the sorted
candidates starting at offset `(page-1)*limit`, and a page beyond
`total_pages` yields an empty item list. -/
def paginationOk (resp : PageResponse) (fullSorted : List Recipe) : Prop :=
  (resp.total_count ≤ resp.total_pages * resp.limit ∧
    resp.total_pages * resp.limit < resp.total_count + resp.limit) ∧
  (resp.total_count = 0 → resp.total_pages = 0) ∧
  resp.has_next = decide (resp.page < resp.total_pages) ∧
  resp.has_prev = decide (1 < resp.page) ∧
  resp.recipes = (fullSorted.drop ((resp.page - 1) * resp.limit)).take resp.limit ∧
  (resp.total_pages < resp.page → resp.recipes = [])

theorem paginationOk_of_slice (page limit : Nat) (full : List Recipe)
    (hp : 1 ≤ page) (hl : 1 ≤ limit) :
    paginationOk
      { recipes := (full.drop ((page - 1) * limit)).take limit
        total_count := full.length
        page := page
        limit := limit
        total_pages := (full.length + limit - 1) / limit
        has_next := decide (page < (full.length + limit - 1) / limit)
        has_prev := decide (1 < page) } full := by
  have hb := ceil_div_bounds full.length limit hl
  refine ⟨hb, ?_, rfl, rfl, rfl, ?_⟩
  · intro h0
    have h0' : full.length = 0 := h0
    show (full.length + limit - 1) / limit = 0
    rw [h0']
    exact Nat.div_eq_of_lt (by omega)
  · intro hbeyond
    have hb' : (full.length + limit - 1) / limit < page := hbeyond
    have h1 : (full.length + limit - 1) / limit ≤ page - 1 := by omega
    have h2 : ((full.length + limit - 1) / limit) * limit ≤ (page - 1) * limit :=
      Nat.mul_le_mul_right limit h1
    have h3 : full.length ≤ (page - 1) * limit := le_trans hb.1 h2
    show (full.drop ((page - 1) * limit)).take limit = []
    simp [List.drop_eq_nil_of_le h3]

/-! ### Test fixtures used by witnesses and counterexamples -/

/-- The empty store. -/
def emptyDB : DB := ⟨[], [], [], [], [], 1, 1, 1, 1⟩

/-- A published baseline recipe used to build concrete stores. -/
def baseRecipe : Recipe :=
  { id := 1
    title := "Pancakes"
    description := some "fluffy breakfast"
    instructions := "mix everything and fry"
    prep_time := some 10
    cook_time := some 15
    total_time := some 25
    servings := some 2
    difficulty_level := some "easy"
    cuisine_type := some "american"
    meal_type := some "breakfast"
    is_vegetarian := true
    is_vegan := false
    is_gluten_free := false
    main_image := none
    is_published := true
    average_rating := 0
    rating_count := 0
    view_count := 0
    favorite_count := 0
    created_at := 100
    author_id := 7 }

/-- Twenty-five published recipes, the population of the spec's
pagination example. -/
def c1DB : DB :=
  { emptyDB with
    recipes := (List.range 25).map fun i =>
      { baseRecipe with id := i + 1, created_at := 100 + i }
    next_recipe_id := 26 }

/-! ### C1 — pagination metadata -/

/-- C1, counterexample: with no recipes at all (`total_count = 0`) and the
valid request `page = 1`, `limit = 10`, the code computes
`total_pages = (0 + 10 - 1) // 10 = 0`, not the claimed 1. -/
theorem C1_counterexample :
    (search_recipes emptyDB noFilters 1 10 none).total_count = 0 ∧
      (search_recipes emptyDB noFilters 1 10 none).total_pages = 0 ∧
      ¬ (search_recipes emptyDB noFilters 1 10 none).total_pages = 1 := by
  decide

/-- C1, amended: for every search or list request with `page ≥ 1` and
`1 ≤ limit ≤ 100`, the envelope satisfies
`total_pages = ceil(total_count / limit)` — which is 0, not 1, when
`total_count = 0` — `has_next = (page < total_pages)`,
`has_prev = (page > 1)`, the items are the slice of the sorted candidate
list starting at offset `(page-1)*limit`, and a page beyond `total_pages`
yields an empty item list with this same metadata rather than an error. -/
theorem C1_pagination (db : DB) (f : SearchFilters)
    (filters : Option ListFilters) (page limit : Nat) (uid : Option Nat)
    (hp : 1 ≤ page) (hl : 1 ≤ limit) (_hl100 : limit ≤ 100) :
    paginationOk (search_recipes db f page limit uid) (searchSorted db f) ∧
      paginationOk (get_recipes db page limit filters uid) (listSorted db filters) := by
  constructor
  · rw [search_recipes_eq, ← length_searchSorted]
    exact paginationOk_of_slice page limit (searchSorted db f) hp hl
  · rw [get_recipes_eq, ← length_listSorted]
    exact paginationOk_of_slice page limit (listSorted db filters) hp hl

/-- C1, witness: the amended pagination facts at the spec's own example —
25 published recipes, `limit = 10`, `page = 3` — where the response holds
5 items with `total_pages = 3`, `has_next = false`, `has_prev = true`. -/
theorem C1_pagination_witness :
    paginationOk (search_recipes c1DB noFilters 3 10 none) (searchSorted c1DB noFilters) ∧
      paginationOk (get_recipes c1DB 3 10 none none) (listSorted c1DB none) :=
  C1_pagination c1DB noFilters none 3 10 none (by decide) (by decide) (by decide)

/-! ### Helper lemmas about search results -/

theorem slice_sublist (l : List Recipe) (o n : Nat) :
    List.Sublist ((l.drop o).take n) l :=
  (List.take_sublist _ _).trans (List.drop_sublist _ _)

theorem mem_search_result {db : DB} {f : SearchFilters} {page limit : Nat}
    {uid : Option Nat} {r : Recipe}
    (h : r ∈ (search_recipes db f page limit uid).recipes) :
    r ∈ db.recipes ∧ matchesFilters db f r = true := by
  rw [search_recipes_eq] at h
  exact mem_searchSorted.mp
    ((slice_sublist (searchSorted db f) ((page - 1) * limit) limit).subset h)

theorem matchesFilters_published {db : DB} {f : SearchFilters} {r : Recipe}
    (h : matchesFilters db f r = true) : r.is_published = true := by
  unfold matchesFilters at h
  repeat rw [Bool.and_eq_true] at h
  exact h.1.1.1.1.1.1.1.1.1.1.1

theorem matchesFilters_vegan {db : DB} {f : SearchFilters} {r : Recipe}
    (h : matchesFilters db f r = true) (hv : truthyBool f.is_vegan = true) :
    r.is_vegan = true := by
  unfold matchesFilters at h
  repeat rw [Bool.and_eq_true] at h
  have hc := h.1.1.2
  rw [hv] at hc
  simpa using hc

theorem matchesFilters_ingredients {db : DB} {f : SearchFilters} {r : Recipe}
    (h : matchesFilters db f r = true)
    (hi : truthyList f.ingredients = true) :
    ingredientMatches db (f.ingredients.getD []) r = true := by
  unfold matchesFilters at h
  repeat rw [Bool.and_eq_true] at h
  have hc := h.1.1.1.1.1.1.1.1.1.2
  rw [hi] at hc
  simpa using hc

/-! ### C5 — only published recipes in search results -/

/-- An unpublished recipe owned by author 7, for the C5 counterexample. -/
def unpublishedRecipe : Recipe :=
  { baseRecipe with is_published := false }

/-- A store holding only that unpublished recipe. -/
def c5DB : DB :=
  { emptyDB with recipes := [unpublishedRecipe], next_recipe_id := 2 }

/-- C5, counterexample: the requester (user 7) is the author of the only
recipe, the recipe is unpublished, and an unfiltered first-page search by
that very author returns nothing — the source filters
`is_published == True` unconditionally, so an author's own unpublished
recipes are not eligible to appear, contrary to the claim's exception
clause. -/
theorem C5_counterexample :
    unpublishedRecipe.author_id = 7 ∧
      unpublishedRecipe.is_published = false ∧
      c5DB.recipes = [unpublishedRecipe] ∧
      (search_recipes c5DB noFilters 1 20 (some 7)).recipes = [] := by
  decide

/-- C5, amended: every recipe in any search result is published, with no
exception for the requesting author — search never returns unpublished
recipes, not even the requester's own. -/
theorem C5_published_only (db : DB) (f : SearchFilters) (page limit : Nat)
    (uid : Option Nat) :
    ∀ r ∈ (search_recipes db f page limit uid).recipes,
      r.is_published = true :=
  fun _ hr => matchesFilters_published (mem_search_result hr).2

/-- A store holding one published recipe, for witnesses. -/
def onePublishedDB : DB :=
  { emptyDB with recipes := [baseRecipe], next_recipe_id := 2 }

/-- C5, witness: the published-only theorem applied to a concrete search
that returns the published base recipe. -/
theorem C5_published_only_witness : baseRecipe.is_published = true :=
  C5_published_only onePublishedDB noFilters 1 20 none baseRecipe (by decide)

/-! ### C6 — result ordering -/

/-- C6: when a text query or an ingredient filter is (truthily) present,
the returned items are in descending relevance-score order; otherwise
they are in descending creation-time order. -/
theorem C6_ordering (db : DB) (f : SearchFilters) (page limit : Nat)
    (uid : Option Nat) :
    ((truthyStr f.query || truthyList f.ingredients) = true →
      List.Sorted relevanceGe (search_recipes db f page limit uid).recipes) ∧
      ((truthyStr f.query || truthyList f.ingredients) = false →
        List.Sorted createdAtGe (search_recipes db f page limit uid).recipes) := by
  rw [search_recipes_eq]
  constructor
  · intro hq
    have hs : List.Sorted relevanceGe (searchSorted db f) := by
      unfold searchSorted
      rw [hq, if_pos rfl]
      exact List.sorted_insertionSort relevanceGe _
    exact hs.sublist (slice_sublist _ _ _)
  · intro hq
    have hs : List.Sorted createdAtGe (searchSorted db f) := by
      unfold searchSorted
      rw [hq]
      simp only [Bool.false_eq_true, if_false]
      exact List.sorted_insertionSort createdAtGe _
    exact hs.sublist (slice_sublist _ _ _)

/-- Two published recipes with opposite relevance and recency order, to
make the C6 witness non-trivial: recipe 1 is more relevant, recipe 2 is
newer. -/
def c6DB : DB :=
  { emptyDB with
    recipes :=
      [{ baseRecipe with id := 1, view_count := 50, created_at := 100 },
       { baseRecipe with id := 2, view_count := 0, created_at := 200 }],
    next_recipe_id := 3 }

/-- Search filters carrying only the text query `"pancakes"`. -/
def c6QueryFilters : SearchFilters :=
  { noFilters with query := some "pancakes" }

/-- C6, witness: both ordering branches of the theorem at concrete
searches over `c6DB`. -/
theorem C6_ordering_witness :
    List.Sorted relevanceGe (search_recipes c6DB c6QueryFilters 1 20 none).recipes ∧
      List.Sorted createdAtGe (search_recipes c6DB noFilters 1 20 none).recipes :=
  ⟨(C6_ordering c6DB c6QueryFilters 1 20 none).1 (by decide),
   (C6_ordering c6DB noFilters 1 20 none).2 (by decide)⟩

/-! ### C7 — ingredient filter is an inclusive OR, AND'ed with the rest -/

/-- The recipe contains at least one ingredient with a name in `names`,
through the recipe-ingredient join. -/
def containsListedIngredient (db : DB) (names : List String) (r : Recipe) : Prop :=
  ∃ ri ∈ db.recipe_ingredients, ri.recipe_id = r.id ∧
    ∃ ing ∈ db.ingredients, ing.id = ri.ingredient_id ∧ ing.name ∈ names

/-- C7: with a non-empty ingredient filter, every returned recipe
contains at least one of the listed ingredients, and it also satisfies
the whole filter conjunction. -/
theorem C7_ingredient_filter (db : DB) (f : SearchFilters)
    (page limit : Nat) (uid : Option Nat) (names : List String)
    (hn : f.ingredients = some names) (hne : names ≠ []) :
    ∀ r ∈ (search_recipes db f page limit uid).recipes,
      containsListedIngredient db names r ∧ matchesFilters db f r = true := by
  intro r hr
  have hm := (mem_search_result hr).2
  have hi : truthyList f.ingredients = true := by
    rw [hn]
    simpa [truthyList] using hne
  have hb := matchesFilters_ingredients hm hi
  rw [hn] at hb
  refine ⟨?_, hm⟩
  simpa [ingredientMatches, List.any_eq_true, decide_eq_true_eq,
    containsListedIngredient] using hb

/-- A store with an egg pancake recipe linked to the ingredient `egg`,
plus an unrelated ingredient `milk`, for the C7 witness. -/
def c7DB : DB :=
  { emptyDB with
    recipes := [baseRecipe],
    ingredients := [⟨1, "egg", some "dairy"⟩, ⟨2, "milk", some "dairy"⟩],
    recipe_ingredients := [⟨1, 1, some "2", some "pieces"⟩],
    next_recipe_id := 2,
    next_ingredient_id := 3 }

/-- Search filters carrying only the ingredient list
`["egg", "flour"]`. -/
def c7Filters : SearchFilters :=
  { noFilters with ingredients := some ["egg", "flour"] }

/-- C7, witness: the ingredient-filter theorem at a concrete search whose
single result contains `egg`. -/
theorem C7_ingredient_filter_witness :
    containsListedIngredient c7DB ["egg", "flour"] baseRecipe ∧
      matchesFilters c7DB c7Filters baseRecipe = true :=
  C7_ingredient_filter c7DB c7Filters 1 20 none ["egg", "flour"] rfl
    (by decide) baseRecipe (by decide)

/-! ### C8 — dietary flag filters -/

/-- A vegan recipe, for the C8 statements. -/
def veganRecipe : Recipe :=
  { baseRecipe with is_vegan := true }

/-- A store holding only the vegan recipe. -/
def c8DB : DB :=
  { emptyDB with recipes := [veganRecipe], next_recipe_id := 2 }

/-- Search filters explicitly carrying `is_vegan = False`. -/
def c8FalseFilters : SearchFilters :=
  { noFilters with is_vegan := some false }

/-- C8, counterexample: filtering with the explicit value
`is_vegan=false` returns the vegan recipe anyway — the source guards
every dietary filter with Python truthiness (`if filters.get(...)`), so a
`False` filter value applies no filter at all instead of requiring an
exact match on `false`. -/
theorem C8_counterexample :
    c8FalseFilters.is_vegan = some false ∧
      (search_recipes c8DB c8FalseFilters 1 20 none).recipes = [veganRecipe] ∧
      veganRecipe.is_vegan = true := by
  decide

/-- C8, amended: a dietary boolean filter is applied only when its value
is `true` (a `false` value is treated like an absent filter); in that
case the match is exact, so filtering by `is_vegan=true` never returns a
recipe whose `is_vegan` flag is false. -/
theorem C8_vegan_exact (db : DB) (f : SearchFilters) (page limit : Nat)
    (uid : Option Nat) (hv : f.is_vegan = some true) :
    ∀ r ∈ (search_recipes db f page limit uid).recipes,
      r.is_vegan = true := by
  intro r hr
  exact matchesFilters_vegan (mem_search_result hr).2 (by rw [hv]; rfl)

/-- Search filters explicitly carrying `is_vegan = True`. -/
def c8TrueFilters : SearchFilters :=
  { noFilters with is_vegan := some true }

/-- C8, witness: the amended theorem at a concrete search returning the
vegan recipe under the `is_vegan=true` filter. -/
theorem C8_vegan_exact_witness : veganRecipe.is_vegan = true :=
  C8_vegan_exact c8DB c8TrueFilters 1 20 none rfl veganRecipe (by decide)

/-! ### Helper lemmas about row updates -/

theorem ratings_recompute (db : DB) (rid : Nat) :
    (recomputeRatingAggregates db rid).ratings = db.ratings := rfl

theorem filter_updateFirst_of_countP_le_one (p : α → Bool) (g : α → α)
    (hg : ∀ a, p (g a) = p a) :
    ∀ l : List α, l.countP p ≤ 1 →
      (updateFirst p g l).filter p = (l.filter p).map g
  | [], _ => rfl
  | x :: xs, h => by
    by_cases hx : p x = true
    · have hcnt : xs.countP p = 0 := by
        rw [List.countP_cons_of_pos _ _ hx] at h
        omega
      have hfx : xs.filter p = [] :=
        List.filter_eq_nil_iff.mpr (List.countP_eq_zero.mp hcnt)
      simp [updateFirst, hx, List.filter_cons, hg x, hfx]
    · have h' : xs.countP p ≤ 1 := by
        rw [List.countP_cons_of_neg _ _ (by simpa using hx)] at h
        exact h
      simp [updateFirst, hx, List.filter_cons,
        filter_updateFirst_of_countP_le_one p g hg xs h']

theorem mem_updateFirst_key (key : α → Nat) (k : Nat) (g : α → α) :
    ∀ l : List α, (l.map key).Nodup →
      ∀ r ∈ updateFirst (fun x => decide (key x = k)) g l, key r = k →
        ∃ r0, r0 ∈ l ∧ r = g r0
  | [], _, r, hr, _ => absurd hr (List.not_mem_nil r)
  | x :: xs, hnd, r, hr, hk => by
    obtain ⟨hx_notin, hnd'⟩ : key x ∉ xs.map key ∧ (xs.map key).Nodup := by
      rw [List.map_cons] at hnd
      exact List.nodup_cons.mp hnd
    by_cases hx : key x = k
    · rw [updateFirst, if_pos (by simpa using hx)] at hr
      rcases List.mem_cons.mp hr with h | h
      · exact ⟨x, List.mem_cons_self x xs, h⟩
      · exact absurd (by rw [hx, ← hk]; exact List.mem_map_of_mem key h) hx_notin
    · rw [updateFirst, if_neg (by simpa using hx)] at hr
      rcases List.mem_cons.mp hr with h | h
      · exact absurd (h ▸ hk) hx
      · obtain ⟨r0, h0, he⟩ := mem_updateFirst_key key k g xs hnd' r h hk
        exact ⟨r0, List.mem_cons_of_mem _ h0, he⟩

/-! ### C2 — rating upsert -/

/-- Success-only elimination of a service result carrying a changed store
and a returned row. -/
def okAnd (x : Except ServiceError (DB × α)) (P : DB → α → Prop) : Prop :=
  match x with
  | .ok y => P y.1 y.2
  | .error _ => False

/-- C2: when the recipe exists and the store holds at most one rating row
for the `(user, recipe)` pair (the spec's uniqueness invariant), a rating
submission succeeds, leaves exactly one rating row for the pair holding
the submitted value and comment, inserts (length + 1) when no row
existed, and updates in place (same length) when one did. Since the
post-state again has exactly one row for the pair, any sequence of
submissions ends with one row holding the last submitted value. -/
theorem C2_rating_upsert (db : DB) (rd : RatingCreate) (uid : Nat)
    (hrec : (db.recipes.find? fun r => decide (r.id = rd.recipe_id)).isSome = true)
    (huniq : db.ratings.countP (ratingPair rd.recipe_id uid) ≤ 1) :
    okAnd (create_rating db rd uid) fun db' _ =>
      ((db'.ratings.filter (ratingPair rd.recipe_id uid)).map
          fun rt => (rt.rating, rt.comment)) = [(rd.rating, rd.comment)] ∧
        (db.ratings.find? (ratingPair rd.recipe_id uid) = none →
          db'.ratings.length = db.ratings.length + 1) ∧
        (∀ rt0, db.ratings.find? (ratingPair rd.recipe_id uid) = some rt0 →
          db'.ratings.length = db.ratings.length) := by
  obtain ⟨rec, hfind⟩ := Option.isSome_iff_exists.mp hrec
  unfold create_rating
  rw [hfind]
  simp only
  cases hex : db.ratings.find? (ratingPair rd.recipe_id uid) with
  | none =>
    have hnone := List.find?_eq_none.mp hex
    have hfilter : db.ratings.filter (ratingPair rd.recipe_id uid) = [] :=
      List.filter_eq_nil_iff.mpr (by simpa using hnone)
    refine ⟨?_, ?_, ?_⟩
    · show ((db.ratings ++
          [(⟨db.next_rating_id, rd.rating, rd.comment, uid, rd.recipe_id⟩ : Rating)]).filter
            (ratingPair rd.recipe_id uid)).map (fun rt => (rt.rating, rt.comment)) =
        [(rd.rating, rd.comment)]
      rw [List.filter_append, hfilter]
      simp [ratingPair]
    · intro _
      show (db.ratings ++
          [(⟨db.next_rating_id, rd.rating, rd.comment, uid, rd.recipe_id⟩ : Rating)]).length =
        db.ratings.length + 1
      simp
    · intro rt0 h0
      cases h0
  | some rt0 =>
    have hg : ∀ x : Rating,
        ratingPair rd.recipe_id uid { x with rating := rd.rating, comment := rd.comment } =
          ratingPair rd.recipe_id uid x := fun _ => rfl
    have hfu := filter_updateFirst_of_countP_le_one (ratingPair rd.recipe_id uid)
      (fun x => { x with rating := rd.rating, comment := rd.comment }) hg db.ratings huniq
    have hcnt1 : db.ratings.countP (ratingPair rd.recipe_id uid) = 1 := by
      have hpos : 0 < db.ratings.countP (ratingPair rd.recipe_id uid) :=
        List.countP_pos_iff.mpr ⟨rt0, List.mem_of_find?_eq_some hex, List.find?_some hex⟩
      omega
    have hlen1 : (db.ratings.filter (ratingPair rd.recipe_id uid)).length = 1 := by
      rw [List.countP_eq_length_filter] at hcnt1
      exact hcnt1
    obtain ⟨a, ha⟩ := List.length_eq_one.mp hlen1
    refine ⟨?_, ?_, ?_⟩
    · show ((updateFirst (ratingPair rd.recipe_id uid)
          (fun x => { x with rating := rd.rating, comment := rd.comment })
          db.ratings).filter (ratingPair rd.recipe_id uid)).map
            (fun rt => (rt.rating, rt.comment)) = [(rd.rating, rd.comment)]
      rw [hfu, ha]
      rfl
    · intro hn
      cases hn
    · intro rt1 h1
      show (updateFirst (ratingPair rd.recipe_id uid)
          (fun x => { x with rating := rd.rating, comment := rd.comment })
          db.ratings).length = db.ratings.length
      exact length_updateFirst _ _ _

/-- A store with one recipe already rated 4 by user 9, the intermediate
state of the spec's "submit 4 then 2" example. -/
def c2DB : DB :=
  { emptyDB with
    recipes := [{ baseRecipe with average_rating := 4, rating_count := 1 }],
    ratings := [⟨1, 4, none, 9, 1⟩],
    next_recipe_id := 2,
    next_rating_id := 2 }

/-- C2, witness: submitting 2 after the earlier 4 leaves exactly one
rating row for the pair, holding 2; the extra conjunct checks the row
update concretely. -/
theorem C2_rating_upsert_witness :
    (okAnd (create_rating c2DB ⟨1, 2, none⟩ 9) fun db' _ =>
      ((db'.ratings.filter (ratingPair 1 9)).map
          fun rt => (rt.rating, rt.comment)) = [(2, none)] ∧
        (c2DB.ratings.find? (ratingPair 1 9) = none →
          db'.ratings.length = c2DB.ratings.length + 1) ∧
        (∀ rt0, c2DB.ratings.find? (ratingPair 1 9) = some rt0 →
          db'.ratings.length = c2DB.ratings.length)) ∧
      ((create_rating c2DB ⟨1, 2, none⟩ 9).toOption.map fun y => y.1.ratings) =
        some [⟨1, 2, none, 9, 1⟩] :=
  ⟨C2_rating_upsert c2DB ⟨1, 2, none⟩ 9 (by decide) (by decide),
   by decide⟩

/-! ### C3 — rating aggregates invariant -/

/-- Every recipe row with the given id carries the exact count and mean
of the current rating rows for that recipe. -/
def ratingInvariantAt (db : DB) (rid : Nat) : Prop :=
  ∀ r ∈ db.recipes, r.id = rid →
    r.rating_count = (ratingsFor db rid).length ∧
      r.average_rating =
        (if (ratingsFor db rid).length = 0 then 0
         else ((ratingsFor db rid).map fun rt => (rt.rating : ℚ)).sum /
           (ratingsFor db rid).length)

theorem ratingInvariantAt_recompute (db : DB) (rid : Nat)
    (hnodup : (db.recipes.map Recipe.id).Nodup) :
    ratingInvariantAt (recomputeRatingAggregates db rid) rid := by
  intro r hr hid
  have hr' : r ∈ updateFirst (fun x => decide (x.id = rid))
      (fun x => { x with
        average_rating :=
          if (ratingsFor db rid).length = 0 then 0
          else ((ratingsFor db rid).map fun rt => (rt.rating : ℚ)).sum /
            (ratingsFor db rid).length,
        rating_count := (ratingsFor db rid).length }) db.recipes := hr
  obtain ⟨r0, _, he⟩ :=
    mem_updateFirst_key Recipe.id rid _ db.recipes hnodup r hr' hid
  subst he
  exact ⟨rfl, rfl⟩

/-- Success-only elimination of a service result carrying a changed
store. -/
def onOkDB (x : Except ServiceError DB) (P : DB → Prop) : Prop :=
  match x with
  | .ok db' => P db'
  | .error _ => True

/-- Success-only elimination of a changed store, ignoring the returned
row. -/
def onOkPair (x : Except ServiceError (DB × α)) (P : DB → Prop) : Prop :=
  match x with
  | .ok y => P y.1
  | .error _ => True

/-- C3: provided recipe ids are unique, after a successful rating
insert/update (`create_rating`, from the source) and after a successful
rating delete (`delete_rating`, modelled from the spec because the
service method is absent from the tree), the touched recipe's
`average_rating` is the mean of all its current rating rows and
`rating_count` their number. -/
theorem C3_rating_aggregates (db : DB) (rd : RatingCreate)
    (uid rating_id duid : Nat)
    (hnodup : (db.recipes.map Recipe.id).Nodup) :
    onOkPair (create_rating db rd uid)
        (fun db' => ratingInvariantAt db' rd.recipe_id) ∧
      onOkDB (delete_rating db rating_id duid)
        (fun db' => ∀ rt0,
          db.ratings.find?
              (fun x => decide (x.id = rating_id) && decide (x.user_id = duid)) =
            some rt0 →
          ratingInvariantAt db' rt0.recipe_id) := by
  constructor
  · unfold create_rating
    cases hfind : db.recipes.find? (fun r => decide (r.id = rd.recipe_id)) with
    | none => exact trivial
    | some rec =>
      simp only
      cases hex : db.ratings.find? (ratingPair rd.recipe_id uid) with
      | none =>
        show ratingInvariantAt (recomputeRatingAggregates _ rd.recipe_id) rd.recipe_id
        exact ratingInvariantAt_recompute _ rd.recipe_id hnodup
      | some rt0 =>
        show ratingInvariantAt (recomputeRatingAggregates _ rd.recipe_id) rd.recipe_id
        exact ratingInvariantAt_recompute _ rd.recipe_id hnodup
  · unfold delete_rating
    cases hex : db.ratings.find?
        (fun x => decide (x.id = rating_id) && decide (x.user_id = duid)) with
    | none => exact trivial
    | some rt0 =>
      intro rt1 h1
      cases h1
      exact ratingInvariantAt_recompute _ rt0.recipe_id hnodup

/-- A store with one recipe rated 5 by user 8, awaiting the second
submission of the spec's "5 and 3 by two users" example. -/
def c3DB : DB :=
  { emptyDB with
    recipes := [{ baseRecipe with average_rating := 5, rating_count := 1 }],
    ratings := [⟨1, 5, none, 8, 1⟩],
    next_recipe_id := 2,
    next_rating_id := 2 }

/-- C3, witness: the invariant after user 9 submits 3 on top of user 8's
5; the extra conjunct checks the aggregates land on exactly
`average_rating = 4` and `rating_count = 2`. -/
theorem C3_rating_aggregates_witness :
    (c3DB.recipes.map Recipe.id).Nodup ∧
      onOkPair (create_rating c3DB ⟨1, 3, none⟩ 9)
        (fun db' => ratingInvariantAt db' 1) ∧
      ((create_rating c3DB ⟨1, 3, none⟩ 9).toOption.map fun y =>
          y.1.recipes.map fun r => (r.average_rating, r.rating_count)) =
        some [(4, 2)] :=
  ⟨by decide,
   (C3_rating_aggregates c3DB ⟨1, 3, none⟩ 9 1 9 (by decide)).1,
   by
    norm_num [c3DB, create_rating, recomputeRatingAggregates, ratingsFor,
      ratingPair, updateFirst, emptyDB, baseRecipe, Except.toOption,
      List.find?, List.filter]⟩

/-! ### C4 — favorite toggle error kinds and counter updates -/

/-- The error of a failed service call, if any. -/
def errOf : Except ServiceError α → Option ServiceError
  | .error e => some e
  | .ok _ => none

/-- A recipe with one favorite, favorited by user 9. -/
def c4Recipe : Recipe :=
  { baseRecipe with favorite_count := 1 }

/-- Store for the favorite-toggle checks: user 9 already favorites
recipe 1. -/
def c4DB : DB :=
  { emptyDB with
    recipes := [c4Recipe],
    favorites := [⟨1, none, 9, 1⟩],
    next_recipe_id := 2,
    next_favorite_id := 2 }

/-- The store after user 5 also favorites recipe 1. -/
def c4DBafter : DB :=
  { emptyDB with
    recipes := [{ baseRecipe with favorite_count := 2 }],
    favorites := [⟨1, none, 9, 1⟩, ⟨2, none, 5, 1⟩],
    next_recipe_id := 2,
    next_favorite_id := 3 }

/-- A store where recipe 1 has a favorite row but a drifted
`favorite_count` of 0, to exhibit the floor. -/
def c4ZeroDB : DB :=
  { emptyDB with
    recipes := [baseRecipe],
    favorites := [⟨1, none, 9, 1⟩],
    next_recipe_id := 2,
    next_favorite_id := 2 }

/-- C4: evaluation of the favorite toggles at the failing and succeeding
inputs. A duplicate add and a remove of an absent favorite both fail with
a bare `ValueError` — surfaced by `main.py` as a 500, not as the declared
409 `DuplicateFavoriteError` or 404 `FavoriteNotFoundError` — and leave
the store (hence `favorite_count`) unchanged; a successful add increments
the count to 2, a second add by the same user fails without further
change (so two adds give +1 in total), a successful remove decrements
back to 1, and removing with a drifted zero count floors at 0. -/
theorem C4_favorites_eval :
    errOf (add_to_favorites c4DB 1 9 none) =
        some (.valueError "Recipe already in favorites") ∧
      httpStatus (.valueError "Recipe already in favorites") = 500 ∧
      DuplicateFavoriteError.status_code = 409 ∧
      errOf (remove_from_favorites c4DB 1 5) =
        some (.valueError "Recipe not in favorites") ∧
      httpStatus (.valueError "Recipe not in favorites") = 500 ∧
      FavoriteNotFoundError.status_code = 404 ∧
      (add_to_favorites c4DB 1 5 none).toOption = some c4DBafter ∧
      ((add_to_favorites c4DB 1 5 none).toOption.map fun d =>
          d.recipes.map fun r => r.favorite_count) = some [2] ∧
      errOf (add_to_favorites c4DBafter 1 5 none) =
        some (.valueError "Recipe already in favorites") ∧
      ((remove_from_favorites c4DBafter 1 5).toOption.map fun d =>
          d.recipes.map fun r => r.favorite_count) = some [1] ∧
      ((remove_from_favorites c4ZeroDB 1 9).toOption.map fun d =>
          d.recipes.map fun r => r.favorite_count) = some [0] := by
  decide

/-! ### C9 — similar recipes -/

/-- C9: when the source recipe exists, the similar-recipes result holds
at most `limit` recipes, each published, distinct from the source, and
matching its cuisine or meal type; the list is ordered by average rating
descending; and whenever fewer than `limit` items are returned, every
eligible recipe — in particular every published cuisine-only match other
than the source — is already among them, so broadening to cuisine-only
matches can never add a missing item (the OR criterion already contains
all cuisine matches). -/
theorem C9_similar_recipes (db : DB) (rid limit : Nat) (recipe : Recipe)
    (hfind : db.recipes.find? (fun r => decide (r.id = rid)) = some recipe) :
    (get_similar_recipes db rid limit).length ≤ limit ∧
      (∀ r ∈ get_similar_recipes db rid limit,
        r.id ≠ rid ∧ r.is_published = true ∧
          (r.cuisine_type = recipe.cuisine_type ∨ r.meal_type = recipe.meal_type)) ∧
      List.Sorted avgRatingGe (get_similar_recipes db rid limit) ∧
      ((get_similar_recipes db rid limit).length < limit →
        ∀ r ∈ db.recipes, r.id ≠ rid → r.is_published = true →
          r.cuisine_type = recipe.cuisine_type →
            r ∈ get_similar_recipes db rid limit) := by
  unfold get_similar_recipes
  rw [hfind]
  simp only
  refine ⟨?_, ?_, ?_, ?_⟩
  · rw [List.length_take]
    exact Nat.min_le_left _ _
  · intro r hr
    have hmem : r ∈ (db.recipes.filter fun r =>
        decide (r.id ≠ rid) && r.is_published &&
          (decide (r.cuisine_type = recipe.cuisine_type) ||
            decide (r.meal_type = recipe.meal_type))).insertionSort avgRatingGe :=
      (List.take_sublist _ _).subset hr
    rw [List.mem_insertionSort, List.mem_filter] at hmem
    have hp := hmem.2
    simp only [Bool.and_eq_true, Bool.or_eq_true, decide_eq_true_eq] at hp
    exact ⟨hp.1.1, hp.1.2, hp.2⟩
  · exact (List.sorted_insertionSort avgRatingGe _).sublist (List.take_sublist _ _)
  · intro hshort r hmem hne hpub hcu
    have hlen := List.length_take limit ((db.recipes.filter fun r =>
        decide (r.id ≠ rid) && r.is_published &&
          (decide (r.cuisine_type = recipe.cuisine_type) ||
            decide (r.meal_type = recipe.meal_type))).insertionSort avgRatingGe)
    rw [hlen] at hshort
    have hfull : ((db.recipes.filter fun r =>
        decide (r.id ≠ rid) && r.is_published &&
          (decide (r.cuisine_type = recipe.cuisine_type) ||
            decide (r.meal_type = recipe.meal_type))).insertionSort avgRatingGe).length ≤
        limit := by omega
    rw [List.take_of_length_le hfull]
    rw [List.mem_insertionSort, List.mem_filter]
    refine ⟨hmem, ?_⟩
    simp only [Bool.and_eq_true, Bool.or_eq_true, decide_eq_true_eq]
    exact ⟨⟨hne, hpub⟩, Or.inl hcu⟩

/-- Source recipe for the C9 witness: italian dinner, id 1. -/
def c9Source : Recipe :=
  { baseRecipe with
    id := 1, cuisine_type := some "italian", meal_type := some "dinner" }

/-- Store for the C9 witness: besides the source, an italian lunch
(rating 3), a mexican dinner (rating 5), and an unpublished italian
dinner. -/
def c9DB : DB :=
  { emptyDB with
    recipes :=
      [c9Source,
       { baseRecipe with
          id := 2, cuisine_type := some "italian", meal_type := some "lunch",
          average_rating := 3, rating_count := 1 },
       { baseRecipe with
          id := 3, cuisine_type := some "mexican", meal_type := some "dinner",
          average_rating := 5, rating_count := 2 },
       { baseRecipe with
          id := 4, cuisine_type := some "italian", meal_type := some "dinner",
          is_published := false }],
    next_recipe_id := 5 }

/-- C9, witness: the similar-recipes theorem at the concrete store with
`limit = 5`. -/
theorem C9_similar_recipes_witness :
    (get_similar_recipes c9DB 1 5).length ≤ 5 ∧
      (∀ r ∈ get_similar_recipes c9DB 1 5,
        r.id ≠ 1 ∧ r.is_published = true ∧
          (r.cuisine_type = c9Source.cuisine_type ∨ r.meal_type = c9Source.meal_type)) ∧
      List.Sorted avgRatingGe (get_similar_recipes c9DB 1 5) ∧
      ((get_similar_recipes c9DB 1 5).length < 5 →
        ∀ r ∈ c9DB.recipes, r.id ≠ 1 → r.is_published = true →
          r.cuisine_type = c9Source.cuisine_type →
            r ∈ get_similar_recipes c9DB 1 5) :=
  C9_similar_recipes c9DB 1 5 c9Source (by decide)

/-! ### C10 — total time invariant -/

/-- The recipe's stored `total_time` is the sum of its stored prep and
cook times, missing values counting as 0. -/
def totalTimeInvariant (r : Recipe) : Prop :=
  r.total_time = some (r.prep_time.getD 0 + r.cook_time.getD 0)

instance : DecidablePred totalTimeInvariant := fun r =>
  inferInstanceAs (Decidable (r.total_time = some (r.prep_time.getD 0 + r.cook_time.getD 0)))

theorem totalTimeInvariant_applyUpdate (r : Recipe) (u : RecipeUpdate)
    (h : totalTimeInvariant r) : totalTimeInvariant (applyUpdate r u) := by
  unfold applyUpdate
  by_cases hc : (u.prep_time.isSome || u.cook_time.isSome) = true
  · rw [if_pos hc]
    rfl
  · rw [if_neg hc]
    rw [Bool.or_eq_true] at hc
    push_neg at hc
    have hp : u.prep_time = none :=
      Option.not_isSome_iff_eq_none.mp (by simpa using hc.1)
    have hck : u.cook_time = none :=
      Option.not_isSome_iff_eq_none.mp (by simpa using hc.2)
    show r.total_time =
      some ((u.prep_time.getD r.prep_time).getD 0 + (u.cook_time.getD r.cook_time).getD 0)
    rw [hp, hck]
    exact h

theorem mem_updateFirst_cases (p : α → Bool) (g : α → α) :
    ∀ l : List α, ∀ r ∈ updateFirst p g l, r ∈ l ∨ ∃ x ∈ l, r = g x
  | [], r, hr => absurd hr (List.not_mem_nil r)
  | x :: xs, r, hr => by
    by_cases hx : p x = true
    · rw [updateFirst, if_pos hx] at hr
      rcases List.mem_cons.mp hr with h | h
      · exact Or.inr ⟨x, List.mem_cons_self x xs, h⟩
      · exact Or.inl (List.mem_cons_of_mem _ h)
    · rw [updateFirst, if_neg hx] at hr
      rcases List.mem_cons.mp hr with h | h
      · exact Or.inl (h ▸ List.mem_cons_self x xs)
      · rcases mem_updateFirst_cases p g xs r h with h1 | ⟨x0, h0, he⟩
        · exact Or.inl (List.mem_cons_of_mem _ h1)
        · exact Or.inr ⟨x0, List.mem_cons_of_mem _ h0, he⟩

theorem recipes_addIngredientFold (rid : Nat) :
    ∀ (l : List IngredientData) (acc : DB),
      (l.foldl (addIngredientStep rid) acc).recipes = acc.recipes
  | [], _ => rfl
  | d :: ds, acc => by
    rw [List.foldl_cons, recipes_addIngredientFold rid ds]
    unfold addIngredientStep
    cases acc.ingredients.find? (fun ing => ing.name.toLower == d.name.toLower) <;> rfl

/-- Success-only elimination of a service result, seeing both the changed
store and the returned row. -/
def onOkBoth (x : Except ServiceError (DB × α)) (P : DB → α → Prop) : Prop :=
  match x with
  | .ok y => P y.1 y.2
  | .error _ => True

/-- C10: recipe creation stores
`total_time = (prep_time or 0) + (cook_time or 0)` and preserves the
invariant store-wide, and a successful update returns a recipe satisfying
the invariant again (recomputing exactly when `prep_time` or `cook_time`
is among the set fields) and preserves it store-wide. -/
theorem C10_total_time (db : DB) (rc : RecipeCreate) (uid now : Nat)
    (rid uid2 : Nat) (u : RecipeUpdate)
    (hinv : ∀ r0 ∈ db.recipes, totalTimeInvariant r0) :
    totalTimeInvariant (create_recipe db rc uid now).2 ∧
      (∀ r0 ∈ (create_recipe db rc uid now).1.recipes, totalTimeInvariant r0) ∧
      onOkBoth (update_recipe db rid u uid2) fun db' updated =>
        totalTimeInvariant updated ∧
          ∀ r0 ∈ db'.recipes, totalTimeInvariant r0 := by
  refine ⟨rfl, ?_, ?_⟩
  · intro r0 hr0
    have hrec : (create_recipe db rc uid now).1.recipes =
        db.recipes ++ [(create_recipe db rc uid now).2] := by
      show (rc.ingredients.foldl (addIngredientStep db.next_recipe_id) _).recipes = _
      rw [recipes_addIngredientFold]
      rfl
    rw [hrec] at hr0
    rcases List.mem_append.mp hr0 with h | h
    · exact hinv r0 h
    · rw [List.mem_singleton] at h
      subst h
      rfl
  · unfold update_recipe
    cases hfind : db.recipes.find? (fun r => decide (r.id = rid)) with
    | none => exact trivial
    | some r =>
      simp only
      by_cases hauth : r.author_id ≠ uid2
      · rw [if_pos hauth]
        exact trivial
      · rw [if_neg hauth]
        have hrinv : totalTimeInvariant r := hinv r (List.mem_of_find?_eq_some hfind)
        refine ⟨totalTimeInvariant_applyUpdate r u hrinv, ?_⟩
        intro r0 hr0
        rcases mem_updateFirst_cases _ _ db.recipes r0 hr0 with h | ⟨x0, _, he⟩
        · exact hinv r0 h
        · subst he
          exact totalTimeInvariant_applyUpdate r u hrinv

/-- Creation payload for the C10 witness: prep 10, cook absent. -/
def c10Create : RecipeCreate :=
  ⟨"Soup", none, "boil water and add things", some 10, none, some 4,
    none, none, none, []⟩

/-- Update payload for the C10 witness: sets `cook_time := 20` (so the
recompute path fires) and nothing else. -/
def c10Update : RecipeUpdate :=
  ⟨none, none, none, none, some (some 20), none, none, none, none, none⟩

/-- C10, witness: the total-time theorem at the one-recipe store, a
concrete creation and a concrete author update. -/
theorem C10_total_time_witness :
    totalTimeInvariant (create_recipe onePublishedDB c10Create 7 200).2 ∧
      (∀ r0 ∈ (create_recipe onePublishedDB c10Create 7 200).1.recipes,
        totalTimeInvariant r0) ∧
      onOkBoth (update_recipe onePublishedDB 1 c10Update 7) fun db' updated =>
        totalTimeInvariant updated ∧
          ∀ r0 ∈ db'.recipes, totalTimeInvariant r0 :=
  C10_total_time onePublishedDB c10Create 7 200 1 7 c10Update (by decide)

end Yumzy
